import Mathlib

/-!
Shallow embedding of the channel-statistics resolver of `src/main.py`
(`youtube_channel_stats`) and proofs of the specification's claims about it.

The handler is modelled as a pure function from an environment — the
configured API key (`os.getenv("YOUTUBE_API_KEY")`) and the upstream HTTP
service, given as an oracle from queries to responses — and the two optional
query parameters `handle` and `id`, to a result together with the list of
upstream queries issued, in order.
-/

namespace Backend

/-- A JSON-like value occurring in the handler's response dictionaries. -/
inductive JVal where
  | str : String → JVal
  | int : Int → JVal
  | null : JVal
deriving DecidableEq, Repr

/-- The `snippet` object of an upstream item; the source reads
`item.get("snippet", {}).get("title")`, so only `title` matters. -/
structure Snippet where
  title : Option String
deriving DecidableEq, Repr

/-- The `statistics` object of an upstream item.  Each counter is an optional
string: `none` covers both an absent key and a JSON `null`, which the source's
`stats.get(k) is not None` test treats identically. -/
structure Stats where
  subscriberCount : Option String
  viewCount : Option String
  videoCount : Option String
deriving DecidableEq, Repr

/-- One element of the upstream response's `items` collection. -/
structure Item where
  id : Option String
  snippet : Option Snippet
  statistics : Option Stats
deriving DecidableEq, Repr

/-- An upstream HTTP response: status code, raw body text (`r.text`), and the
decoded `items` collection (`data.get("items")`; a missing key and an empty
list are both falsy in the source, so both are modelled as `[]`). -/
structure UpstreamResponse where
  status_code : Nat
  text : String
  items : List Item
deriving DecidableEq, Repr

/-- An outbound query to the upstream API: the mode-specific parameter
(`forHandle` or `id`) together with the credential (`key`) parameter. -/
inductive UpstreamQuery where
  | forHandle : String → String → UpstreamQuery
  | byId : String → String → UpstreamQuery
deriving DecidableEq, Repr

/-- Outcome of one handler invocation: a returned JSON dictionary, a raised
`HTTPException status_code detail`, or an unhandled Python exception escaping
the handler (e.g. `ValueError` from `int()`). -/
inductive Result where
  | json : List (String × JVal) → Result
  | httpError : Nat → String → Result
  | pyError : Result
deriving DecidableEq, Repr

/-- The handler's run-time environment: `api_key` is
`os.getenv("YOUTUBE_API_KEY")`, `net` the upstream service. -/
structure Env where
  api_key : Option String
  net : UpstreamQuery → UpstreamResponse

/-- Python truthiness test `not x` for an optional string: `None` and the
empty string are falsy. -/
def falsy : Option String → Bool
  | none => true
  | some s => s == ""

/-- Python `s.startswith(p)` / Lean `String.startsWith`, stated over the
character list so that it evaluates by kernel reduction. -/
def strStartsWith (s p : String) : Bool :=
  List.isPrefixOf p.toList s.toList

/-- Python slice `s[:n]`: the first `n` characters (code points) of `s`. -/
def strTake (s : String) (n : Nat) : String :=
  String.mk (s.toList.take n)

/-- Python `s.strip()` (surrounding whitespace removed), as a character
list. -/
def pyStrip (s : String) : List Char :=
  ((s.toList.dropWhile Char.isWhitespace).reverse.dropWhile Char.isWhitespace).reverse

/-- Value of a nonempty all-digit character sequence, `none` otherwise. -/
def decDigits? (cs : List Char) : Option Nat :=
  if cs ≠ [] ∧ cs.all Char.isDigit then
    some (cs.foldl (fun n c => 10 * n + (c.toNat - 48)) 0)
  else none

/-- Python `int(s)` applied to a string: surrounding whitespace is stripped,
then an optional sign followed by one or more decimal digits; anything else
raises `ValueError`, modelled as `none`.  (Python additionally accepts
underscore digit separators, which no claim exercises.) -/
def pyInt? (s : String) : Option Int :=
  match pyStrip s with
  | '-' :: rest => (decDigits? rest).map (fun n => -(n : Int))
  | '+' :: rest => (decDigits? rest).map (fun n => (n : Int))
  | t => (decDigits? t).map (fun n => (n : Int))

/-- The counter coercion
`int(stats.get(k, 0)) if stats.get(k) is not None else None` (lines 80–82 and
101–103): `none` models the `ValueError` escaping the handler, `some none` a
null output field, `some (some n)` an integer output field. -/
def coerceCounter : Option String → Option (Option Int)
  | none => some none
  | some s => (pyInt? s).map some

/-- JSON encoding of an optional string (Python `None` → `null`). -/
def optStrJVal : Option String → JVal
  | none => JVal.null
  | some s => JVal.str s

/-- JSON encoding of an optional integer (Python `None` → `null`). -/
def optIntJVal : Option Int → JVal
  | none => JVal.null
  | some n => JVal.int n

/-- `item.get("statistics", {})`: an absent statistics object behaves as one
with every counter absent. -/
def Item.stats (item : Item) : Stats :=
  item.statistics.getD ⟨none, none, none⟩

/-- `item.get("snippet", {}).get("title")`. -/
def Item.titleOf (item : Item) : Option String :=
  match item.snippet with
  | none => none
  | some sn => sn.title

/-- The dictionary returned on the unconfigured branch (lines 40–48): note
that the three numeric keys are present, bound to `null`. -/
def unconfiguredJson (handle id : Option String) : List (String × JVal) :=
  [("status", JVal.str "unconfigured"),
   ("message", JVal.str "YOUTUBE_API_KEY not set on server"),
   ("subscriberCount", JVal.null),
   ("viewCount", JVal.null),
   ("videoCount", JVal.null),
   ("channelId", optStrJVal id),
   ("handle", optStrJVal handle)]

/-- The `status="ok"` dictionary (lines 76–83 and 97–104), given the already
coerced counters. -/
def okFields (item : Item) (sc vc vd : Option Int) : List (String × JVal) :=
  [("status", JVal.str "ok"),
   ("channelId", optStrJVal item.id),
   ("title", optStrJVal item.titleOf),
   ("subscriberCount", optIntJVal sc),
   ("viewCount", optIntJVal vc),
   ("videoCount", optIntJVal vd)]

/-- Build the `status="ok"` response from the first upstream item; a counter
that is present but fails `int()` coercion escapes as an unhandled
exception. -/
def okFromItem (item : Item) : Result :=
  match coerceCounter item.stats.subscriberCount, coerceCounter item.stats.viewCount,
        coerceCounter item.stats.videoCount with
  | some sc, some vc, some vd => Result.json (okFields item sc vc vd)
  | _, _, _ => Result.pyError

/-- The identifier path of the handler (lines 86–106): reached directly when
no usable handle was supplied, or after the "UC" fallback overwrote `id` with
the handle string.  `log` carries the queries already issued. -/
def idPath (net : UpstreamQuery → UpstreamResponse) (key : String)
    (id : Option String) (log : List UpstreamQuery) :
    Result × List UpstreamQuery :=
  if falsy id then (Result.httpError 400 "Invalid request", log)
  else
    let q := UpstreamQuery.byId (id.getD "") key
    let r := net q
    if r.status_code ≠ 200 then
      (Result.httpError r.status_code (strTake r.text 200), log ++ [q])
    else
      match r.items with
      | [] => (Result.httpError 404 "Channel not found for id", log ++ [q])
      | item :: _ => (okFromItem item, log ++ [q])

/-- The channel-statistics handler (`youtube_channel_stats`, lines 27–106 of
`src/main.py`), returning its result and the list of upstream queries
issued. -/
def youtube_channel_stats (env : Env) (handle id : Option String) :
    Result × List UpstreamQuery :=
  if falsy env.api_key then
    (Result.json (unconfiguredJson handle id), [])
  else if falsy handle && falsy id then
    (Result.httpError 400 "Provide either 'handle' or 'id'", [])
  else
    let key := env.api_key.getD ""
    if falsy handle then
      idPath env.net key id []
    else
      let h := handle.getD ""
      let q := UpstreamQuery.forHandle h key
      let r := env.net q
      if r.status_code ≠ 200 then
        (Result.httpError r.status_code (strTake r.text 200), [q])
      else
        match r.items with
        | [] =>
            if strStartsWith h "UC" then
              idPath env.net key (some h) [q]
            else
              (Result.httpError 404 "Channel not found for handle", [q])
        | item :: _ => (okFromItem item, [q])

/-- Association-list lookup in a response dictionary. -/
def jLookup (fields : List (String × JVal)) (k : String) : Option JVal :=
  List.lookup k fields

/-- An upstream service always answering 200 with no items. -/
def netEmpty : UpstreamQuery → UpstreamResponse := fun _ => ⟨200, "", []⟩

/-- The upstream item of the spec's end-to-end example (§8): id `UC123`,
title `Example`, `subscriberCount` `"42"`, the other counters absent. -/
def exItem : Item :=
  ⟨some "UC123", some ⟨some "Example"⟩, some ⟨some "42", none, none⟩⟩

/-- Upstream service answering 200 with exactly the example item. -/
def netOne : UpstreamQuery → UpstreamResponse := fun _ => ⟨200, "", [exItem]⟩

/-- An item whose counters exercise the null-vs-zero distinction:
`subscriberCount` `"0"`, `viewCount` absent, `videoCount` `"7"`. -/
def zeroItem : Item := ⟨some "UC9", none, some ⟨some "0", none, some "7"⟩⟩

/-- Upstream service answering 200 with exactly `zeroItem`. -/
def netZero : UpstreamQuery → UpstreamResponse := fun _ => ⟨200, "", [zeroItem]⟩

/-- Upstream service always failing with status 500 and body `backendError`. -/
def netErr : UpstreamQuery → UpstreamResponse := fun _ => ⟨500, "backendError", []⟩

/-- An item whose `subscriberCount` is present and non-null but not a
decimal-integer string. -/
def badItem : Item :=
  ⟨some "UC1", some ⟨some "T"⟩, some ⟨some "not-a-number", some "1", some "2"⟩⟩

/-- Upstream service answering 200 with exactly `badItem`. -/
def netBad : UpstreamQuery → UpstreamResponse := fun _ => ⟨200, "", [badItem]⟩

/-! ## Helper lemmas -/

theorem falsy_some_false {s : String} (hs : s ≠ "") : falsy (some s) = false := by
  simp [falsy, hs]

theorem idPath_log (net : UpstreamQuery → UpstreamResponse) (key : String)
    (id : Option String) (log : List UpstreamQuery) (hnf : falsy id = false) :
    (idPath net key id log).2 = log ++ [UpstreamQuery.byId (id.getD "") key] := by
  simp only [idPath, hnf, Bool.false_eq_true, if_false]
  split
  · rfl
  · split <;> rfl

theorem idPath_404 (net : UpstreamQuery → UpstreamResponse) (key i : String)
    (log : List UpstreamQuery) (hi : i ≠ "")
    (h200 : (net (UpstreamQuery.byId i key)).status_code = 200)
    (hempty : (net (UpstreamQuery.byId i key)).items = []) :
    (idPath net key (some i) log).1 =
      Result.httpError 404 "Channel not found for id" := by
  simp [idPath, falsy_some_false hi, h200, hempty]

theorem fallback_to_idPath (net : UpstreamQuery → UpstreamResponse) (k h : String)
    (id : Option String) (hk : k ≠ "") (hh : h ≠ "")
    (h200 : (net (UpstreamQuery.forHandle h k)).status_code = 200)
    (hempty : (net (UpstreamQuery.forHandle h k)).items = [])
    (hUC : strStartsWith h "UC" = true) :
    youtube_channel_stats ⟨some k, net⟩ (some h) id =
      idPath net k (some h) [UpstreamQuery.forHandle h k] := by
  simp [youtube_channel_stats, falsy_some_false hk, falsy_some_false hh, h200,
    hempty, hUC]

theorem handle_path_items (net : UpstreamQuery → UpstreamResponse) (k h : String)
    (id : Option String) (item : Item) (rest : List Item)
    (hk : k ≠ "") (hh : h ≠ "")
    (h200 : (net (UpstreamQuery.forHandle h k)).status_code = 200)
    (hitems : (net (UpstreamQuery.forHandle h k)).items = item :: rest) :
    youtube_channel_stats ⟨some k, net⟩ (some h) id =
      (okFromItem item, [UpstreamQuery.forHandle h k]) := by
  simp [youtube_channel_stats, falsy_some_false hk, falsy_some_false hh, h200,
    hitems]

/-! ## Claims -/

/-- C5: with an API key configured and neither `handle` nor `id` supplied,
the resolver fails with HTTP 400 and issues no upstream call. -/
theorem C5_missing_params_400 (net : UpstreamQuery → UpstreamResponse)
    (k : String) (hk : k ≠ "") :
    youtube_channel_stats ⟨some k, net⟩ none none =
      (Result.httpError 400 "Provide either 'handle' or 'id'", []) := by
  simp [youtube_channel_stats, falsy_some_false hk, falsy, hk]

theorem C5_missing_params_400_witness :
    youtube_channel_stats ⟨some "k", netEmpty⟩ none none =
      (Result.httpError 400 "Provide either 'handle' or 'id'", []) :=
  C5_missing_params_400 netEmpty "k" (by decide)

/-- C4: with no API key configured, the resolver returns the
`status="unconfigured"` dictionary for any `handle`/`id`, issues no upstream
call, and raises no error. -/
theorem C4_unconfigured (net : UpstreamQuery → UpstreamResponse)
    (api_key handle id : Option String) (hk : falsy api_key = true) :
    youtube_channel_stats ⟨api_key, net⟩ handle id =
      (Result.json (unconfiguredJson handle id), []) ∧
    jLookup (unconfiguredJson handle id) "status" =
      some (JVal.str "unconfigured") := by
  constructor
  · simp [youtube_channel_stats, hk]
  · rfl

theorem C4_unconfigured_witness :
    youtube_channel_stats ⟨none, netEmpty⟩ (some "@x") (some "UC1") =
      (Result.json (unconfiguredJson (some "@x") (some "UC1")), []) ∧
    jLookup (unconfiguredJson (some "@x") (some "UC1")) "status" =
      some (JVal.str "unconfigured") :=
  C4_unconfigured netEmpty none (some "@x") (some "UC1") (by decide)

/-- C6: with an API key configured, a handle lookup returning zero items for
a handle not starting with "UC" fails with HTTP 404, the handle-path query
being the only upstream call. -/
theorem C6_handle_not_found_404 (net : UpstreamQuery → UpstreamResponse)
    (k h : String) (id : Option String) (hk : k ≠ "") (hh : h ≠ "")
    (h200 : (net (UpstreamQuery.forHandle h k)).status_code = 200)
    (hempty : (net (UpstreamQuery.forHandle h k)).items = [])
    (hUC : strStartsWith h "UC" = false) :
    youtube_channel_stats ⟨some k, net⟩ (some h) id =
      (Result.httpError 404 "Channel not found for handle",
       [UpstreamQuery.forHandle h k]) := by
  simp [youtube_channel_stats, falsy_some_false hk, falsy_some_false hh, h200,
    hempty, hUC]

theorem C6_handle_not_found_404_witness :
    youtube_channel_stats ⟨some "k", netEmpty⟩ (some "@nope") none =
      (Result.httpError 404 "Channel not found for handle",
       [UpstreamQuery.forHandle "@nope" "k"]) :=
  C6_handle_not_found_404 netEmpty "k" "@nope" none (by decide) (by decide)
    (by decide) (by decide) (by decide)

/-- C1: with an API key configured, a handle lookup returning zero items for
a handle starting with "UC" triggers a second upstream lookup by identifier
with the handle string as the id; if that lookup also returns zero items, the
resolver fails with HTTP 404. -/
theorem C1_uc_fallback (net : UpstreamQuery → UpstreamResponse) (k h : String)
    (id : Option String) (hk : k ≠ "") (hh : h ≠ "")
    (h200 : (net (UpstreamQuery.forHandle h k)).status_code = 200)
    (hempty : (net (UpstreamQuery.forHandle h k)).items = [])
    (hUC : strStartsWith h "UC" = true) :
    (youtube_channel_stats ⟨some k, net⟩ (some h) id).2 =
      [UpstreamQuery.forHandle h k, UpstreamQuery.byId h k] ∧
    ((net (UpstreamQuery.byId h k)).status_code = 200 →
     (net (UpstreamQuery.byId h k)).items = [] →
     (youtube_channel_stats ⟨some k, net⟩ (some h) id).1 =
       Result.httpError 404 "Channel not found for id") := by
  have hfb := fallback_to_idPath net k h id hk hh h200 hempty hUC
  constructor
  · rw [hfb, idPath_log net k (some h) [UpstreamQuery.forHandle h k]
      (falsy_some_false hh)]
    rfl
  · intro h200b hemptyb
    rw [hfb]
    exact idPath_404 net k h [UpstreamQuery.forHandle h k] hh h200b hemptyb

theorem C1_uc_fallback_witness :
    (youtube_channel_stats ⟨some "k", netEmpty⟩ (some "UC123") none).2 =
      [UpstreamQuery.forHandle "UC123" "k", UpstreamQuery.byId "UC123" "k"] ∧
    (youtube_channel_stats ⟨some "k", netEmpty⟩ (some "UC123") none).1 =
      Result.httpError 404 "Channel not found for id" := by
  have h := C1_uc_fallback netEmpty "k" "UC123" none (by decide) (by decide)
    (by decide) (by decide) (by decide)
  exact ⟨h.1, h.2 (by decide) (by decide)⟩

/-- C2: with an API key configured and a handle resolving to exactly one
upstream item, the resolver returns `status="ok"` with `channelId` the item's
id, `title` the item's snippet title, and the three counters coerced from the
item's statistics strings. -/
theorem C2_single_item_ok (net : UpstreamQuery → UpstreamResponse) (k h : String)
    (id : Option String) (item : Item) (sc vc vd : Option Int)
    (hk : k ≠ "") (hh : h ≠ "")
    (h200 : (net (UpstreamQuery.forHandle h k)).status_code = 200)
    (hitems : (net (UpstreamQuery.forHandle h k)).items = [item])
    (hsc : coerceCounter item.stats.subscriberCount = some sc)
    (hvc : coerceCounter item.stats.viewCount = some vc)
    (hvd : coerceCounter item.stats.videoCount = some vd) :
    (youtube_channel_stats ⟨some k, net⟩ (some h) id).1 =
      Result.json
        [("status", JVal.str "ok"),
         ("channelId", optStrJVal item.id),
         ("title", optStrJVal item.titleOf),
         ("subscriberCount", optIntJVal sc),
         ("viewCount", optIntJVal vc),
         ("videoCount", optIntJVal vd)] := by
  rw [handle_path_items net k h id item [] hk hh h200 hitems]
  simp [okFromItem, hsc, hvc, hvd, okFields]

theorem C2_single_item_ok_witness :
    (youtube_channel_stats ⟨some "k", netOne⟩ (some "@UNBEQUEM-o2w") none).1 =
      Result.json
        [("status", JVal.str "ok"), ("channelId", JVal.str "UC123"),
         ("title", JVal.str "Example"), ("subscriberCount", JVal.int 42),
         ("viewCount", JVal.null), ("videoCount", JVal.null)] :=
  C2_single_item_ok netOne "k" "@UNBEQUEM-o2w" none exItem (some 42) none none
    (by decide) (by decide) (by decide) (by decide) (by decide) (by decide)
    (by decide)

/-- C3: in a `status="ok"` result, a statistics counter absent upstream
yields `null` in the corresponding output field, never `0`, and a counter
present as the string "0" yields the integer `0`. -/
theorem C3_null_vs_zero (net : UpstreamQuery → UpstreamResponse) (k h : String)
    (id : Option String) (item : Item) (sc vc vd : Option Int)
    (hk : k ≠ "") (hh : h ≠ "")
    (h200 : (net (UpstreamQuery.forHandle h k)).status_code = 200)
    (hitems : (net (UpstreamQuery.forHandle h k)).items = [item])
    (hsc : coerceCounter item.stats.subscriberCount = some sc)
    (hvc : coerceCounter item.stats.viewCount = some vc)
    (hvd : coerceCounter item.stats.videoCount = some vd) :
    (youtube_channel_stats ⟨some k, net⟩ (some h) id).1 =
      Result.json (okFields item sc vc vd) ∧
    (item.stats.subscriberCount = none →
      jLookup (okFields item sc vc vd) "subscriberCount" = some JVal.null) ∧
    (item.stats.subscriberCount = some "0" →
      jLookup (okFields item sc vc vd) "subscriberCount" = some (JVal.int 0)) ∧
    (item.stats.viewCount = none →
      jLookup (okFields item sc vc vd) "viewCount" = some JVal.null) ∧
    (item.stats.viewCount = some "0" →
      jLookup (okFields item sc vc vd) "viewCount" = some (JVal.int 0)) ∧
    (item.stats.videoCount = none →
      jLookup (okFields item sc vc vd) "videoCount" = some JVal.null) ∧
    (item.stats.videoCount = some "0" →
      jLookup (okFields item sc vc vd) "videoCount" = some (JVal.int 0)) := by
  have h00 : coerceCounter (some "0") = some (some 0) := by decide
  have h0n : coerceCounter none = some none := rfl
  refine ⟨?_, ?_, ?_, ?_, ?_, ?_, ?_⟩
  · rw [handle_path_items net k h id item [] hk hh h200 hitems]
    simp [okFromItem, hsc, hvc, hvd]
  · intro hcase; rw [hcase, h0n] at hsc
    injection hsc with h2; subst h2; rfl
  · intro hcase; rw [hcase, h00] at hsc
    injection hsc with h2; subst h2; rfl
  · intro hcase; rw [hcase, h0n] at hvc
    injection hvc with h2; subst h2; rfl
  · intro hcase; rw [hcase, h00] at hvc
    injection hvc with h2; subst h2; rfl
  · intro hcase; rw [hcase, h0n] at hvd
    injection hvd with h2; subst h2; rfl
  · intro hcase; rw [hcase, h00] at hvd
    injection hvd with h2; subst h2; rfl

theorem C3_null_vs_zero_witness :
    (youtube_channel_stats ⟨some "k", netZero⟩ (some "@z") none).1 =
      Result.json (okFields zeroItem (some 0) none (some 7)) ∧
    jLookup (okFields zeroItem (some 0) none (some 7)) "subscriberCount" =
      some (JVal.int 0) ∧
    jLookup (okFields zeroItem (some 0) none (some 7)) "viewCount" =
      some JVal.null := by
  have h := C3_null_vs_zero netZero "k" "@z" none zeroItem (some 0) none (some 7)
    (by decide) (by decide) (by decide) (by decide) (by decide) (by decide)
    (by decide)
  exact ⟨h.1, h.2.2.1 (by decide), h.2.2.2.1 (by decide)⟩

/-- C7: an upstream call answering with a status other than 200, on the
direct handle path, the direct identifier path, or the fallback identifier
path, makes the resolver fail with that same status code and the first 200
characters of the upstream body as detail. -/
theorem C7_upstream_error (net : UpstreamQuery → UpstreamResponse) (k : String)
    (hk : k ≠ "") :
    (∀ (h : String) (id : Option String), h ≠ "" →
      (net (UpstreamQuery.forHandle h k)).status_code ≠ 200 →
      youtube_channel_stats ⟨some k, net⟩ (some h) id =
        (Result.httpError (net (UpstreamQuery.forHandle h k)).status_code
          (strTake (net (UpstreamQuery.forHandle h k)).text 200),
         [UpstreamQuery.forHandle h k])) ∧
    (∀ (handle : Option String) (i : String), falsy handle = true → i ≠ "" →
      (net (UpstreamQuery.byId i k)).status_code ≠ 200 →
      youtube_channel_stats ⟨some k, net⟩ handle (some i) =
        (Result.httpError (net (UpstreamQuery.byId i k)).status_code
          (strTake (net (UpstreamQuery.byId i k)).text 200),
         [UpstreamQuery.byId i k])) ∧
    (∀ (h : String) (id : Option String), h ≠ "" →
      (net (UpstreamQuery.forHandle h k)).status_code = 200 →
      (net (UpstreamQuery.forHandle h k)).items = [] →
      strStartsWith h "UC" = true →
      (net (UpstreamQuery.byId h k)).status_code ≠ 200 →
      youtube_channel_stats ⟨some k, net⟩ (some h) id =
        (Result.httpError (net (UpstreamQuery.byId h k)).status_code
          (strTake (net (UpstreamQuery.byId h k)).text 200),
         [UpstreamQuery.forHandle h k, UpstreamQuery.byId h k])) := by
  refine ⟨?_, ?_, ?_⟩
  · intro h id hh hne
    simp [youtube_channel_stats, falsy_some_false hk, falsy_some_false hh, hne]
  · intro handle i hf hi hne
    simp [youtube_channel_stats, idPath, falsy_some_false hk, hf,
      falsy_some_false hi, hne]
  · intro h id hh h200 hempty hUC hne
    rw [fallback_to_idPath net k h id hk hh h200 hempty hUC]
    simp [idPath, falsy_some_false hh, hne]

theorem C7_upstream_error_witness :
    youtube_channel_stats ⟨some "k", netErr⟩ (some "@h") none =
      (Result.httpError 500 (strTake "backendError" 200),
       [UpstreamQuery.forHandle "@h" "k"]) :=
  (C7_upstream_error netErr "k" (by decide)).1 "@h" none (by decide) (by decide)

/-- C9: an upstream item whose statistics counter is present and non-null
but not a decimal-integer string makes the `int()` coercion raise an
exception that escapes the handler: the result is neither a `status="ok"`
dictionary nor one of the typed HTTP errors. -/
theorem C9_bad_counter_unhandled :
    pyInt? "not-a-number" = none ∧
    badItem.stats.subscriberCount = some "not-a-number" ∧
    (youtube_channel_stats ⟨some "k", netBad⟩ (some "@x") none).1 =
      Result.pyError := by
  refine ⟨by decide, by decide, by decide⟩

theorem handle_log (net : UpstreamQuery → UpstreamResponse) (k h : String)
    (id : Option String) (hk : k ≠ "") (hh : h ≠ "") :
    (youtube_channel_stats ⟨some k, net⟩ (some h) id).2 =
        [UpstreamQuery.forHandle h k] ∨
    (youtube_channel_stats ⟨some k, net⟩ (some h) id).2 =
        [UpstreamQuery.forHandle h k, UpstreamQuery.byId h k] := by
  by_cases h200 : (net (UpstreamQuery.forHandle h k)).status_code = 200
  · rcases hitem : (net (UpstreamQuery.forHandle h k)).items with _ | ⟨item, rest⟩
    · by_cases hUC : strStartsWith h "UC" = true
      · right
        rw [fallback_to_idPath net k h id hk hh h200 hitem hUC,
          idPath_log net k (some h) _ (falsy_some_false hh)]
        rfl
      · left
        simp [youtube_channel_stats, falsy_some_false hk, falsy_some_false hh,
          h200, hitem, hUC]
    · left
      rw [handle_path_items net k h id item rest hk hh h200 hitem]
  · left
    simp [youtube_channel_stats, falsy_some_false hk, falsy_some_false hh, h200]

/-- C10: with an API key configured and both a (non-empty) handle and an id
supplied, every upstream query uses the handle string — on the handle path or,
after the "UC" fallback overwrites the id, on the identifier path — so the
supplied id value is never sent. -/
theorem C10_supplied_id_unused (net : UpstreamQuery → UpstreamResponse)
    (k h i : String) (hk : k ≠ "") (hh : h ≠ "") :
    ∀ q ∈ (youtube_channel_stats ⟨some k, net⟩ (some h) (some i)).2,
      q = UpstreamQuery.forHandle h k ∨ q = UpstreamQuery.byId h k := by
  intro q hq
  rcases handle_log net k h (some i) hk hh with hl | hl <;> rw [hl] at hq <;>
    simp at hq
  · left; exact hq
  · tauto

theorem C10_supplied_id_unused_witness :
    UpstreamQuery.byId "ZZ999" "k" ∉
      (youtube_channel_stats ⟨some "k", netEmpty⟩ (some "UCa")
        (some "ZZ999")).2 := by
  intro hmem
  rcases C10_supplied_id_unused netEmpty "k" "UCa" "ZZ999" (by decide)
      (by decide) _ hmem with h | h
  · exact absurd h (by decide)
  · exact absurd h (by decide)

/-- C8 as stated is false: the unconfigured response contains the three
numeric keys, bound to `null`, while its status is not `ok`. -/
theorem C8_counterexample_numeric_keys_present :
    (youtube_channel_stats ⟨none, netEmpty⟩ none none).1 =
      Result.json (unconfiguredJson none none) ∧
    ("status", JVal.str "ok") ∉ unconfiguredJson none none ∧
    ("status", JVal.str "unconfigured") ∈ unconfiguredJson none none ∧
    ("subscriberCount", JVal.null) ∈ unconfiguredJson none none ∧
    ("viewCount", JVal.null) ∈ unconfiguredJson none none ∧
    ("videoCount", JVal.null) ∈ unconfiguredJson none none := by
  refine ⟨rfl, ?_, ?_, ?_, ?_, ?_⟩ <;> decide

theorem okFromItem_json (item : Item) (fields : List (String × JVal))
    (h : okFromItem item = Result.json fields) :
    ("status", JVal.str "ok") ∈ fields := by
  unfold okFromItem at h
  split at h
  · injection h with h1
    subst h1
    simp [okFields]
  · simp at h

theorem idPath_json (net : UpstreamQuery → UpstreamResponse) (key : String)
    (id : Option String) (log : List UpstreamQuery)
    (fields : List (String × JVal))
    (h : (idPath net key id log).1 = Result.json fields) :
    ∃ item, okFromItem item = Result.json fields := by
  simp only [idPath] at h
  split at h
  · simp at h
  · split at h
    · simp at h
    · split at h
      · simp at h
      · exact ⟨_, h⟩

/-- C8 amended: whenever the resolver returns a JSON dictionary, either its
status is `ok`, or (unconfigured shape) the three numeric keys are present
but bound to `null` — not absent, and never integers. -/
theorem C8_amended_numeric_null_unless_ok (env : Env)
    (handle id : Option String) (fields : List (String × JVal))
    (hjson : (youtube_channel_stats env handle id).1 = Result.json fields) :
    ("status", JVal.str "ok") ∈ fields ∨
      (("subscriberCount", JVal.null) ∈ fields ∧
       ("viewCount", JVal.null) ∈ fields ∧
       ("videoCount", JVal.null) ∈ fields) := by
  simp only [youtube_channel_stats] at hjson
  split at hjson
  · right
    have h1 : unconfiguredJson handle id = fields := by simpa using hjson
    rw [← h1]
    refine ⟨?_, ?_, ?_⟩ <;> simp [unconfiguredJson]
  · split at hjson
    · simp at hjson
    · split at hjson
      · obtain ⟨item, hitem⟩ := idPath_json _ _ _ _ _ hjson
        left; exact okFromItem_json _ _ hitem
      · split at hjson
        · simp at hjson
        · split at hjson
          · split at hjson
            · obtain ⟨item, hitem⟩ := idPath_json _ _ _ _ _ hjson
              left; exact okFromItem_json _ _ hitem
            · simp at hjson
          · left
            exact okFromItem_json _ _ (by simpa using hjson)

theorem C8_amended_numeric_null_unless_ok_witness :
    ("status", JVal.str "ok") ∈ unconfiguredJson none none ∨
      (("subscriberCount", JVal.null) ∈ unconfiguredJson none none ∧
       ("viewCount", JVal.null) ∈ unconfiguredJson none none ∧
       ("videoCount", JVal.null) ∈ unconfiguredJson none none) :=
  C8_amended_numeric_null_unless_ok ⟨none, netEmpty⟩ none none
    (unconfiguredJson none none) rfl

end Backend
